import Mathlib

/-!
Shallow embedding of the veterinary DICOM API server (TypeScript sources:
`routes/caseBundle.ts`, `routes/orthanc.ts`, `services/orthancService.ts`,
`utils/dicom.ts`, `mock-db/cases.ts`, `types/index.ts`).  Pure functions are
translated directly; the route handler's in-place assignment to the record
returned by the mock database is made visible by threading the record store
explicitly; the two outbound HTTP calls per server are modelled by response
functions carried in a `Server` value, and every call made is recorded in a
request trace so that call-count properties can be stated.
-/

namespace OrthancApi

/-- A parsed JSON scalar, as far as the code inspects one: the only dynamic
type test in the source is `typeof seriesUid === 'string'`. -/
inductive JsonVal where
  | str (s : String)
  | num (n : Int)
  | boolVal (b : Bool)
  | nullVal
deriving DecidableEq

/-- One attribute of the DICOMweb wire format (`types/index.ts`,
`DicomWebSeries` entries): an optional value list and an optional VR label. -/
structure TagEntry where
  vr : Option String
  Value : Option (List JsonVal)
deriving DecidableEq

/-- A DICOMweb series object: a finite mapping from tag keys to entries,
modelled as an association list (`types/index.ts`, `DicomWebSeries`). -/
abbrev DicomWebSeries := List (String × TagEntry)

/-- Property lookup `s[tag]` on a DICOMweb series object. -/
def lookupTag : DicomWebSeries → String → Option TagEntry
  | [], _ => none
  | (k, e) :: rest, tag => if tag = k then some e else lookupTag rest tag

/-- The optional-chain expression `s['0020000E']?.Value?.[0]` used by
`extractSeriesUids` (`services/orthancService.ts` line 134). -/
def firstSeriesValue (s : DicomWebSeries) : Option JsonVal :=
  ((lookupTag s "0020000E").bind TagEntry.Value).bind List.head?

/-- `OrthancService.extractSeriesUids` (`services/orthancService.ts` lines
131-138): map each group to the first value under tag `0020000E` when that
value is a string and to `null` otherwise, then filter the nulls out. -/
def extractSeriesUids (series : List DicomWebSeries) : List String :=
  (series.map fun s =>
    match firstSeriesValue s with
    | some (JsonVal.str u) => some u
    | _ => none).filterMap id

/-- Matcher for the regex used by `isValidStudyInstanceUID`
(`utils/dicom.ts` line 41), namely one or more digits followed by zero or
more groups of a dot and one or more digits, as a character automaton:
`needDigit` is true at the start and right after a dot, where a digit is
mandatory and a dot is refused. -/
def matchFrom (needDigit : Bool) : List Char → Bool
  | [] => !needDigit
  | c :: rest =>
    if c = '.' then !needDigit && matchFrom true rest
    else c.isDigit && matchFrom false rest

/-- `isValidStudyInstanceUID` (`utils/dicom.ts` lines 24-44): reject the
empty string, reject length zero or above 64, then test the numeric-dot
regex against the characters. -/
def isValidStudyInstanceUID (uid : String) : Bool :=
  if uid = "" then false
  else if uid.length = 0 || uid.length > 64 then false
  else matchFrom true uid.data

/-- Modelled from the spec's words for the study-identifier grammar: one or
more digits, followed by zero or more groups of a single dot followed by one
or more digits.  Used only to compare the source's regex against the spec. -/
inductive UidChars : List Char → Prop where
  | base (ds : List Char) (hne : ds ≠ []) (hdig : ∀ c ∈ ds, c.isDigit = true) :
      UidChars ds
  | group (ds rest : List Char) (hne : ds ≠ [])
      (hdig : ∀ c ∈ ds, c.isDigit = true) (h : UidChars rest) :
      UidChars (ds ++ '.' :: rest)

/-- Outcome of one `fetch` call: the promise rejects with a connection
error, rejects with a timeout raised by `AbortSignal.timeout(5000)`, or
resolves with an HTTP status code and a parsed body. -/
inductive NetResult (α : Type) where
  | connError
  | timeout
  | response (status : Nat) (body : α)

/-- The `Response.ok` flag of the fetch API: status in the range 200-299. -/
def respOk (status : Nat) : Bool := 200 ≤ status && status ≤ 299

/-- A network-level failure as the spec's error taxonomy has it: connection
error, timeout, or a response whose status is not a success status. -/
def isNetworkFailure {α : Type} : NetResult α → Bool
  | NetResult.connError => true
  | NetResult.timeout => true
  | NetResult.response st _ => !respOk st

/-- One Orthanc series descriptor as the list-series endpoint returns it;
the code reads only `MainDicomTags.SeriesInstanceUID` of it
(`services/orthancService.ts` line 114). -/
structure SeriesObject where
  seriesInstanceUID : String
deriving DecidableEq

/-- Behaviour of one archive server: its base URL, its reply to the
find-study POST keyed by the queried StudyInstanceUID, and its reply to the
list-series GET keyed by the internal record ID. -/
structure Server where
  baseUrl : String
  findResp : String → NetResult (List String)
  seriesResp : String → NetResult (List SeriesObject)

/-- An outbound HTTP request, recorded so that call-count properties can be
stated: the find-study POST and the list-series GET. -/
inductive Request where
  | findStudy (base uid : String)
  | listSeries (base recordId : String)
deriving DecidableEq

/-- The DICOMweb conversion at `services/orthancService.ts` lines 113-115:
each series object becomes the one-entry mapping sending tag `0020000E` to
VR `UI` and the one-element value list holding its SeriesInstanceUID. -/
def toDicomWebFormat (o : SeriesObject) : DicomWebSeries :=
  [("0020000E", TagEntry.mk (some "UI") (some [JsonVal.str o.seriesInstanceUID]))]

/-- `OrthancService.fetchFromServer` (`services/orthancService.ts` lines
71-124) with an explicit request trace.  Any rejection of either call
(connection error or timeout) is caught by the surrounding try/catch and
becomes `none`; a response with a non-ok status becomes `none`; an ok
find response carrying zero record IDs becomes the empty array; otherwise
the first record ID is used for the list-series call, whose objects are
converted to the DICOMweb format. -/
def fetchFromServer (srv : Server) (uid : String) :
    Option (List DicomWebSeries) × List Request :=
  match srv.findResp uid with
  | NetResult.connError => (none, [Request.findStudy srv.baseUrl uid])
  | NetResult.timeout => (none, [Request.findStudy srv.baseUrl uid])
  | NetResult.response st studyIds =>
    if !respOk st then (none, [Request.findStudy srv.baseUrl uid])
    else
      match studyIds with
      | [] => (some [], [Request.findStudy srv.baseUrl uid])
      | id0 :: _ =>
        match srv.seriesResp id0 with
        | NetResult.connError =>
          (none, [Request.findStudy srv.baseUrl uid, Request.listSeries srv.baseUrl id0])
        | NetResult.timeout =>
          (none, [Request.findStudy srv.baseUrl uid, Request.listSeries srv.baseUrl id0])
        | NetResult.response st2 objs =>
          if !respOk st2 then
            (none, [Request.findStudy srv.baseUrl uid, Request.listSeries srv.baseUrl id0])
          else
            (some (objs.map toDicomWebFormat),
             [Request.findStudy srv.baseUrl uid, Request.listSeries srv.baseUrl id0])

/-- `OrthancService.fetchStudySeries` (`services/orthancService.ts` lines
45-63): try the primary server; on a non-null result return it at once;
otherwise try the fallback server; if both fail return `null`.  The trace
concatenates the requests actually made, in order. -/
def fetchStudySeries (p s : Server) (uid : String) :
    Option (List DicomWebSeries) × List Request :=
  match (fetchFromServer p uid).1 with
  | some r => (some r, (fetchFromServer p uid).2)
  | none =>
    match (fetchFromServer s uid).1 with
    | some r => (some r, (fetchFromServer p uid).2 ++ (fetchFromServer s uid).2)
    | none => (none, (fetchFromServer p uid).2 ++ (fetchFromServer s uid).2)

/-- Patient demographics (`types/index.ts` lines 20-28).  The two numeric
fields are JavaScript numbers holding exact decimal values in the data set;
they are embedded as rationals. -/
structure Patient where
  id : String
  name : String
  species : String
  breed : Option String
  ageYears : Rat
  weightKg : Option Rat
  sex : String
deriving DecidableEq

/-- One urinalysis lab result (`types/index.ts` lines 31-34). -/
structure Urinalysis where
  culture : String
  result : String
deriving DecidableEq

/-- The extensible lab-result record (`types/index.ts` lines 30-35). -/
structure LabResults where
  urinalysis : Option Urinalysis
deriving DecidableEq

/-- Imaging metadata of a case (`types/index.ts` lines 36-40). -/
structure Imaging where
  studyInstanceUid : String
  series : List String
  sedationProtocol : Option String
deriving DecidableEq

/-- The aggregated clinical case bundle (`types/index.ts` lines 18-41). -/
structure CaseBundle where
  studyInstanceUid : String
  patient : Patient
  history : String
  labResults : LabResults
  imaging : Imaging
deriving DecidableEq

/-- The mock database, a mapping from StudyInstanceUID to case bundle
(`mock-db/cases.ts`), embedded as an association list. -/
abbrev Store := List (String × CaseBundle)

/-- Key of the first sample case (`mock-db/cases.ts` line 21). -/
def lunaUid : String :=
  "1.3.6.1.4.1.14519.5.2.1.2193.7172.847236098565581057121195872945"

/-- Key of the second sample case (`mock-db/cases.ts` line 40). -/
def fluffyUid : String :=
  "1.2.826.0.1.3680043.8.1055.1.20111103111148288.98361414.79379639"

/-- Key of the third sample case (`mock-db/cases.ts` line 64). -/
def maxUid : String := "123"

/-- Key of the fourth sample case (`mock-db/cases.ts` line 83). -/
def buddyUid : String := "2.16.840.1.113669.632.20.1211.10000357775"

/-- Sample case P004 (`mock-db/cases.ts` lines 21-39). -/
def caseLuna : CaseBundle :=
  { studyInstanceUid := lunaUid
    patient :=
      { id := "P004", name := "Luna", species := "Canine",
        breed := some "Mixed Breed", ageYears := 3,
        weightKg := some (mkRat 187 10), sex := "FS" }
    history := "Routine chest radiographs for pre-anesthetic screening. No clinical signs."
    labResults := { urinalysis := none }
    imaging :=
      { studyInstanceUid := lunaUid, series := [],
        sedationProtocol := some "None required (conscious radiographs)" } }

/-- Sample case P001 (`mock-db/cases.ts` lines 40-63). -/
def caseFluffy : CaseBundle :=
  { studyInstanceUid := fluffyUid
    patient :=
      { id := "P001", name := "Fluffy", species := "Feline",
        breed := some "Domestic Shorthair", ageYears := 10,
        weightKg := some (mkRat 42 10), sex := "FS" }
    history := "Straining to urinate, suspected UTI. Owner reports vocalizing when using litter box."
    labResults := { urinalysis := some { culture := "E. coli", result := "Positive" } }
    imaging :=
      { studyInstanceUid := fluffyUid, series := [],
        sedationProtocol := some "Dexmedetomidine 5 mcg/kg IM" } }

/-- Sample case P002 (`mock-db/cases.ts` lines 64-82); the one case whose
placeholder series list is non-empty. -/
def caseMax : CaseBundle :=
  { studyInstanceUid := maxUid
    patient :=
      { id := "P002", name := "Max", species := "Canine",
        breed := some "Golden Retriever", ageYears := 5,
        weightKg := some (mkRat 325 10), sex := "M" }
    history := "Limping on right hind leg for 3 days. No known trauma. Possible CCL tear (common in breed)."
    labResults := { urinalysis := none }
    imaging :=
      { studyInstanceUid := maxUid,
        series := ["SERIES_UID_1", "SERIES_UID_2"],
        sedationProtocol := some "Propofol 6 mg/kg IV for positioning" } }

/-- Sample case P003 (`mock-db/cases.ts` lines 83-107). -/
def caseBuddy : CaseBundle :=
  { studyInstanceUid := buddyUid
    patient :=
      { id := "P003", name := "Buddy", species := "Canine",
        breed := some "Labrador Retriever", ageYears := 7,
        weightKg := some (mkRat 283 10), sex := "M" }
    history := "Persistent cough for 2 weeks, exercise intolerance. Rule out cardiac disease vs respiratory pathology."
    labResults := { urinalysis := none }
    imaging :=
      { studyInstanceUid := buddyUid,
        series :=
          ["1.3.46.670589.11.0.0.11.4.2.0.8743.5.5396.2006120114285654497",
           "1.3.46.670589.11.0.0.11.4.2.0.8743.5.5396.2006120114314125550",
           "1.3.46.670589.11.0.0.11.4.2.0.8743.5.5396.2006120114262848496"],
        sedationProtocol := some "None (cooperative patient, conscious radiographs)" } }

/-- The static record store `caseBundles` (`mock-db/cases.ts` lines 20-108). -/
def caseBundles : Store :=
  [(lunaUid, caseLuna), (fluffyUid, caseFluffy), (maxUid, caseMax),
   (buddyUid, caseBuddy)]

/-- Record lookup `caseBundles[studyInstanceUid]` on an explicit store. -/
def lookupStore : Store → String → Option CaseBundle
  | [], _ => none
  | (k, v) :: rest, uid => if uid = k then some v else lookupStore rest uid

/-- `findCaseByStudyUid` (`mock-db/cases.ts` lines 111-113): lookup in the
static store.  The value returned is the store's own record, not a copy. -/
def findCaseByStudyUid (studyInstanceUid : String) : Option CaseBundle :=
  lookupStore caseBundles studyInstanceUid

/-- Effect on the store of assigning through the reference returned by
`findCaseByStudyUid`: the record stored under that key now carries the new
value. -/
def updateStore : Store → String → CaseBundle → Store
  | [], _, _ => []
  | (k, v) :: rest, uid, cb =>
    if k = uid then (k, cb) :: updateStore rest uid cb
    else (k, v) :: updateStore rest uid cb

/-- Responses the case-bundle route can produce (`routes/caseBundle.ts`):
HTTP 400 on a malformed UID, HTTP 404 when the store has no case, or the
bundle itself. -/
inductive CaseBundleResponse where
  | badRequest (error : String)
  | caseNotFound (error : String)
  | okBundle (bundle : CaseBundle)
deriving DecidableEq

/-- The `GET /api/case-bundle/:studyInstanceUid` handler
(`routes/caseBundle.ts` lines 23-62), with the record store threaded
explicitly: the bundle obtained from the store is the stored record itself,
so the assignment `caseBundle.imaging.series = seriesUids` on a non-empty
fetch result updates the store as well as the response. -/
def caseBundleHandler (p s : Server) (store : Store) (uid : String) :
    CaseBundleResponse × Store × List Request :=
  if isValidStudyInstanceUID uid = false then
    (CaseBundleResponse.badRequest "Invalid StudyInstanceUID format", store, [])
  else
    match lookupStore store uid with
    | none => (CaseBundleResponse.caseNotFound "Case not found for study UID", store, [])
    | some caseBundle =>
      match (fetchStudySeries p s uid).1 with
      | some seriesData =>
        if seriesData.length > 0 then
          (CaseBundleResponse.okBundle
             { caseBundle with imaging :=
                { caseBundle.imaging with series := extractSeriesUids seriesData } },
           updateStore store uid
             { caseBundle with imaging :=
                { caseBundle.imaging with series := extractSeriesUids seriesData } },
           (fetchStudySeries p s uid).2)
        else
          (CaseBundleResponse.okBundle caseBundle, store, (fetchStudySeries p s uid).2)
      | none =>
        (CaseBundleResponse.okBundle caseBundle, store, (fetchStudySeries p s uid).2)

/-- Responses the orthanc series route can produce (`routes/orthanc.ts`):
HTTP 400 on a malformed UID, the generic fetch-error body when the
orchestrator returned `null`, or the raw DICOMweb data. -/
inductive OrthancSeriesResponse where
  | badRequest (error : String)
  | fetchError (error : String)
  | okSeries (data : List DicomWebSeries)
deriving DecidableEq

/-- The `GET /api/orthanc/series/:studyInstanceUid` handler
(`routes/orthanc.ts` lines 85-125). -/
def orthancSeriesHandler (p s : Server) (uid : String) :
    OrthancSeriesResponse × List Request :=
  if isValidStudyInstanceUID uid = false then
    (OrthancSeriesResponse.badRequest "Invalid StudyInstanceUID format", [])
  else
    match (fetchStudySeries p s uid).1 with
    | none =>
      (OrthancSeriesResponse.fetchError "Unable to fetch from Orthanc",
       (fetchStudySeries p s uid).2)
    | some seriesData =>
      (OrthancSeriesResponse.okSeries seriesData, (fetchStudySeries p s uid).2)

/-- Test fixture: a healthy archive server returning one record ID and two
series. -/
def testPrimary : Server :=
  { baseUrl := "http://localhost:8042"
    findResp := fun _ => NetResult.response 200 ["rid1"]
    seriesResp := fun _ =>
      NetResult.response 200 [SeriesObject.mk "1.2.3", SeriesObject.mk "1.2.4"] }

/-- Test fixture: a server whose find-study call fails with a connection
error. -/
def downServer : Server :=
  { baseUrl := "http://fallback:8042"
    findResp := fun _ => NetResult.connError
    seriesResp := fun _ => NetResult.connError }

/-- Test fixture: a server whose find-study call succeeds but whose
list-series call times out. -/
def halfServer : Server :=
  { baseUrl := "http://half:8042"
    findResp := fun _ => NetResult.response 200 ["rid9"]
    seriesResp := fun _ => NetResult.timeout }

/-- Test fixture: a server that affirmatively reports zero matches. -/
def emptyFindServer : Server :=
  { baseUrl := "http://empty:8042"
    findResp := fun _ => NetResult.response 200 []
    seriesResp := fun _ => NetResult.connError }

/-- Cons law of the extractor when the head group carries a string first
value under the series tag. -/
theorem extractSeriesUids_cons_str (g : DicomWebSeries) (rest : List DicomWebSeries)
    (u : String) (h : firstSeriesValue g = some (JsonVal.str u)) :
    extractSeriesUids (g :: rest) = u :: extractSeriesUids rest := by
  simp [extractSeriesUids, h]

/-- Cons law of the extractor when the head group is malformed: the head is
dropped and the rest is processed unchanged. -/
theorem extractSeriesUids_cons_skip (g : DicomWebSeries) (rest : List DicomWebSeries)
    (h : ∀ u, firstSeriesValue g ≠ some (JsonVal.str u)) :
    extractSeriesUids (g :: rest) = extractSeriesUids rest := by
  simp only [extractSeriesUids, List.map_cons, List.filterMap_cons]
  cases hv : firstSeriesValue g with
  | none => simp
  | some v =>
    cases v with
    | str u => exact absurd hv (h u)
    | num n => simp
    | boolVal b => simp
    | nullVal => simp

/-- A decimal digit is not the dot character. -/
theorem digit_ne_dot {c : Char} (h : c.isDigit = true) : c ≠ '.' := by
  intro hc
  subst hc
  exact absurd h (by decide)

/-- A word of the spec grammar is never empty. -/
theorem uidChars_ne_nil {cs : List Char} (h : UidChars cs) : cs ≠ [] := by
  cases h with
  | base ds hne hdig => exact hne
  | group ds rest hne hdig h =>
    cases ds with
    | nil => exact absurd rfl hne
    | cons d ds' => simp

/-- Prepending a digit preserves membership in the spec grammar. -/
theorem uidChars_cons_digit {d : Char} {cs : List Char} (hd : d.isDigit = true)
    (h : UidChars cs) : UidChars (d :: cs) := by
  cases h with
  | base ds hne hdig =>
    refine UidChars.base (d :: cs) (by simp) ?_
    intro c hc
    rcases List.mem_cons.mp hc with h1 | h2
    · exact h1 ▸ hd
    · exact hdig c h2
  | group ds rest hne hdig h =>
    have heq : d :: (ds ++ '.' :: rest) = (d :: ds) ++ '.' :: rest := rfl
    rw [heq]
    refine UidChars.group (d :: ds) rest (by simp) ?_ h
    intro c hc
    rcases List.mem_cons.mp hc with h1 | h2
    · exact h1 ▸ hd
    · exact hdig c h2

/-- Soundness of the regex matcher: acceptance from the initial state means
membership in the spec grammar; acceptance from the in-component state means
membership once any digit is prepended. -/
theorem matchFrom_sound (cs : List Char) :
    (matchFrom true cs = true → UidChars cs) ∧
    (matchFrom false cs = true → ∀ d : Char, d.isDigit = true → UidChars (d :: cs)) := by
  induction cs with
  | nil =>
    constructor
    · intro h; exact absurd h (by decide)
    · intro _ d hd
      refine UidChars.base [d] (by simp) ?_
      intro c hc
      simp at hc
      subst hc
      exact hd
  | cons c rest ih =>
    constructor
    · intro h
      by_cases hc : c = '.'
      · subst hc
        simp [matchFrom] at h
      · rw [matchFrom, if_neg hc] at h
        have hcd : c.isDigit = true := by
          cases hcd : c.isDigit
          · rw [hcd] at h; simp at h
          · rfl
        have hm : matchFrom false rest = true := by
          rw [hcd] at h; simpa using h
        exact ih.2 hm c hcd
    · intro h d hd
      by_cases hc : c = '.'
      · subst hc
        rw [matchFrom, if_pos rfl] at h
        have hm : matchFrom true rest = true := by simpa using h
        have hr := ih.1 hm
        refine UidChars.group [d] rest (by simp) ?_ hr
        intro x hx
        simp at hx
        subst hx
        exact hd
      · rw [matchFrom, if_neg hc] at h
        have hcd : c.isDigit = true := by
          cases hcd : c.isDigit
          · rw [hcd] at h; simp at h
          · rfl
        have hm : matchFrom false rest = true := by
          rw [hcd] at h; simpa using h
        exact uidChars_cons_digit hd (ih.2 hm c hcd)

/-- A block of digits is skipped by the matcher in its in-component state. -/
theorem matchFrom_digits (ds tail : List Char) (h : ∀ c ∈ ds, c.isDigit = true) :
    matchFrom false (ds ++ tail) = matchFrom false tail := by
  induction ds with
  | nil => rfl
  | cons c ds' ih =>
    have hc : c.isDigit = true := h c (List.mem_cons_self c ds')
    show matchFrom false (c :: (ds' ++ tail)) = _
    rw [matchFrom, if_neg (digit_ne_dot hc), hc]
    simpa using ih fun x hx => h x (List.mem_cons_of_mem c hx)

/-- Completeness of the regex matcher for the spec grammar. -/
theorem matchFrom_complete {cs : List Char} (h : UidChars cs) :
    matchFrom true cs = true := by
  induction h with
  | base ds hne hdig =>
    cases ds with
    | nil => exact absurd rfl hne
    | cons d ds' =>
      have hd : d.isDigit = true := hdig d (List.mem_cons_self d ds')
      rw [matchFrom, if_neg (digit_ne_dot hd), hd]
      have hrest := matchFrom_digits ds' [] fun c hc => hdig c (List.mem_cons_of_mem d hc)
      simp at hrest
      simp [hrest, matchFrom]
  | group ds rest hne hdig hr ih =>
    cases ds with
    | nil => exact absurd rfl hne
    | cons d ds' =>
      have hd : d.isDigit = true := hdig d (List.mem_cons_self d ds')
      show matchFrom true (d :: (ds' ++ '.' :: rest)) = true
      rw [matchFrom, if_neg (digit_ne_dot hd), hd]
      rw [matchFrom_digits ds' ('.' :: rest) fun c hc => hdig c (List.mem_cons_of_mem d hc)]
      rw [matchFrom, if_pos rfl]
      simpa using ih

/-- The validator agrees with the spec grammar bounded at 64 characters. -/
theorem valid_iff (s : String) :
    isValidStudyInstanceUID s = true ↔ (UidChars s.data ∧ s.length ≤ 64) := by
  unfold isValidStudyInstanceUID
  split_ifs with h0 hlen
  · subst h0
    constructor
    · intro h; exact absurd h (by decide)
    · rintro ⟨h, -⟩
      exact absurd (by decide) (uidChars_ne_nil h)
  · simp only [decide_eq_true_eq, Bool.or_eq_true] at hlen
    constructor
    · intro h; exact absurd h (by decide)
    · rintro ⟨hu, hle⟩
      rcases hlen with hz | hgt
      · apply h0
        have hd : s.data = [] := List.length_eq_zero.mp hz
        cases s with
        | mk data =>
          simp at hd
          subst hd
          rfl
      · omega
  · simp only [decide_eq_true_eq, Bool.or_eq_true, not_or] at hlen
    constructor
    · intro h
      exact ⟨(matchFrom_sound s.data).1 h, by omega⟩
    · rintro ⟨hu, -⟩
      exact matchFrom_complete hu

/-- Updating one key of the store leaves every lookup at a different key
unchanged. -/
theorem lookupStore_updateStore_ne (store : Store) (uid k : String) (cb : CaseBundle)
    (h : k ≠ uid) :
    lookupStore (updateStore store uid cb) k = lookupStore store k := by
  induction store with
  | nil => rfl
  | cons kv rest ih =>
    obtain ⟨k0, v0⟩ := kv
    by_cases h0 : k0 = uid
    · subst h0
      simp [updateStore, lookupStore, h, ih]
    · by_cases hk : k = k0
      · simp [updateStore, lookupStore, h0, hk]
      · simp [updateStore, lookupStore, h0, hk, ih]

/-- Every key actually present in the static record store passes the UID
validator, so the case-bundle handler reaches the store lookup for them. -/
theorem caseBundles_keys_valid (uid : String) (cb : CaseBundle)
    (h : lookupStore caseBundles uid = some cb) :
    isValidStudyInstanceUID uid = true := by
  by_cases h1 : uid = lunaUid
  · subst h1; decide
  · by_cases h2 : uid = fluffyUid
    · subst h2; decide
    · by_cases h3 : uid = maxUid
      · subst h3; decide
      · by_cases h4 : uid = buddyUid
        · subst h4; decide
        · exfalso
          simp [caseBundles, lookupStore, h1, h2, h3, h4] at h

/-- The case-bundle handler either returns the store untouched or replaces
the record stored under the requested key. -/
theorem caseBundleHandler_store_cases (p s : Server) (store : Store) (uid : String) :
    (caseBundleHandler p s store uid).2.1 = store ∨
    ∃ cb', (caseBundleHandler p s store uid).2.1 = updateStore store uid cb' := by
  unfold caseBundleHandler
  split
  · left; rfl
  · split
    · left; rfl
    · split
      · split
        · right; exact ⟨_, rfl⟩
        · left; rfl
      · left; rfl

/-- C1: for every study identifier, the fallback orchestrator first queries
the primary server; a non-failure primary result (any non-null sequence,
empty included) is returned exactly, with a request trace containing no
call to the secondary server; when the primary fails and the secondary
yields a non-failure result, the secondary's sequence is returned; when
both fail the null sentinel is returned, and null is distinct from the
empty sequence. -/
theorem fetchStudySeries_fallback_orchestration (p s : Server) (uid : String) :
    (∀ r, (fetchFromServer p uid).1 = some r →
      fetchStudySeries p s uid = (some r, (fetchFromServer p uid).2)) ∧
    ((fetchFromServer p uid).1 = none → ∀ r, (fetchFromServer s uid).1 = some r →
      (fetchStudySeries p s uid).1 = some r) ∧
    ((fetchFromServer p uid).1 = none → (fetchFromServer s uid).1 = none →
      (fetchStudySeries p s uid).1 = none) ∧
    (none : Option (List DicomWebSeries)) ≠ some [] := by
  refine ⟨?_, ?_, ?_, by simp⟩
  · intro r hr
    simp [fetchStudySeries, hr]
  · intro hp r hs
    simp [fetchStudySeries, hp, hs]
  · intro hp hs
    simp [fetchStudySeries, hp, hs]

/-- Witness for C1: a healthy primary is returned with a primary-only trace,
a dead primary falls back to the secondary, two dead servers give null. -/
theorem fetchStudySeries_fallback_orchestration_witness :
    fetchStudySeries testPrimary downServer "1.2" =
      (some [toDicomWebFormat (SeriesObject.mk "1.2.3"),
             toDicomWebFormat (SeriesObject.mk "1.2.4")],
       [Request.findStudy "http://localhost:8042" "1.2",
        Request.listSeries "http://localhost:8042" "rid1"]) ∧
    (fetchStudySeries downServer testPrimary "1.2").1 =
      some [toDicomWebFormat (SeriesObject.mk "1.2.3"),
            toDicomWebFormat (SeriesObject.mk "1.2.4")] ∧
    (fetchStudySeries downServer downServer "1.2").1 = none :=
  ⟨(fetchStudySeries_fallback_orchestration testPrimary downServer "1.2").1 _ rfl,
   (fetchStudySeries_fallback_orchestration downServer testPrimary "1.2").2.1 rfl _ rfl,
   (fetchStudySeries_fallback_orchestration downServer downServer "1.2").2.2.1 rfl rfl⟩

/-- C3: each network-level fault, that is a connection error, a timeout or
a non-success HTTP status, on either of the Archive Query Client's two
calls makes the client return the null outcome; the client is a total
function into an option type, so no network fault escapes it to the
orchestrator. -/
theorem fetchFromServer_network_failures (srv : Server) (uid : String) :
    (isNetworkFailure (srv.findResp uid) = true → (fetchFromServer srv uid).1 = none) ∧
    (∀ st id0 rest, srv.findResp uid = NetResult.response st (id0 :: rest) →
      respOk st = true → isNetworkFailure (srv.seriesResp id0) = true →
      (fetchFromServer srv uid).1 = none) := by
  constructor
  · intro h
    cases hf : srv.findResp uid with
    | connError => simp [fetchFromServer, hf]
    | timeout => simp [fetchFromServer, hf]
    | response st body =>
      rw [hf] at h
      simp only [isNetworkFailure, Bool.not_eq_true'] at h
      simp [fetchFromServer, hf, h]
  · intro st id0 rest hf hok h
    cases hs : srv.seriesResp id0 with
    | connError => simp [fetchFromServer, hf, hok, hs]
    | timeout => simp [fetchFromServer, hf, hok, hs]
    | response st2 objs =>
      rw [hs] at h
      simp only [isNetworkFailure, Bool.not_eq_true'] at h
      simp [fetchFromServer, hf, hok, hs, h]

/-- Witness for C3: a connection error on the find call and a timeout on
the series call both produce the null outcome. -/
theorem fetchFromServer_network_failures_witness :
    (fetchFromServer downServer "1.2").1 = none ∧
    (fetchFromServer halfServer "1.2").1 = none :=
  ⟨(fetchFromServer_network_failures downServer "1.2").1 rfl,
   (fetchFromServer_network_failures halfServer "1.2").2 200 "rid9" [] rfl rfl rfl⟩

/-- C4: a successful find-study call that yields zero matching internal
record IDs makes the Archive Query Client return the empty sequence, an
outcome distinguishable from the null failure outcome. -/
theorem fetchFromServer_notFound_empty (srv : Server) (uid : String) (st : Nat)
    (hok : respOk st = true) (hfind : srv.findResp uid = NetResult.response st []) :
    (fetchFromServer srv uid).1 = some [] ∧
    some ([] : List DicomWebSeries) ≠ (none : Option (List DicomWebSeries)) := by
  refine ⟨?_, by simp⟩
  simp [fetchFromServer, hfind, hok]

/-- Witness for C4: a server affirmatively reporting zero matches. -/
theorem fetchFromServer_notFound_empty_witness :
    (fetchFromServer emptyFindServer "1.2").1 = some [] ∧
    some ([] : List DicomWebSeries) ≠ (none : Option (List DicomWebSeries)) :=
  fetchFromServer_notFound_empty emptyFindServer "1.2" 200 rfl rfl

/-- C8: when the find-study call succeeds with one or more record IDs, the
client's second request lists the series of exactly the first record ID in
server-returned order, whatever the outcome of that second call. -/
theorem fetchFromServer_uses_first_record (srv : Server) (uid : String) (st : Nat)
    (id0 : String) (rest : List String)
    (hok : respOk st = true)
    (hfind : srv.findResp uid = NetResult.response st (id0 :: rest)) :
    (fetchFromServer srv uid).2 =
      [Request.findStudy srv.baseUrl uid, Request.listSeries srv.baseUrl id0] := by
  simp only [fetchFromServer, hfind, hok]
  cases srv.seriesResp id0 with
  | connError => simp
  | timeout => simp
  | response st2 objs =>
    by_cases h2 : respOk st2 = true
    · simp [h2]
    · simp only [Bool.not_eq_true] at h2
      simp [h2]

/-- Witness for C8: the healthy test server is asked for the series of its
first returned record ID. -/
theorem fetchFromServer_uses_first_record_witness :
    (fetchFromServer testPrimary "1.2").2 =
      [Request.findStudy "http://localhost:8042" "1.2",
       Request.listSeries "http://localhost:8042" "rid1"] :=
  fetchFromServer_uses_first_record testPrimary "1.2" 200 "rid1" [] rfl rfl

/-- C5: the identifier extractor returns, in input order, exactly the first
value of tag 0020000E of each group for which that tag is present and its
first value is a string, and silently drops every other group without
affecting the remaining entries; being total, it errors on no input.  The
three equations characterise the function completely. -/
theorem extractSeriesUids_behaviour :
    extractSeriesUids [] = [] ∧
    (∀ g rest u, firstSeriesValue g = some (JsonVal.str u) →
      extractSeriesUids (g :: rest) = u :: extractSeriesUids rest) ∧
    (∀ g rest, (∀ u, firstSeriesValue g ≠ some (JsonVal.str u)) →
      extractSeriesUids (g :: rest) = extractSeriesUids rest) :=
  ⟨rfl, extractSeriesUids_cons_str, extractSeriesUids_cons_skip⟩

/-- Witness for C5: two well-formed groups with a malformed group between
them yield the two identifiers in order. -/
theorem extractSeriesUids_behaviour_witness :
    extractSeriesUids
      [toDicomWebFormat (SeriesObject.mk "1.2.3"), [],
       toDicomWebFormat (SeriesObject.mk "1.2.4")] = ["1.2.3", "1.2.4"] := by
  rw [extractSeriesUids_behaviour.2.1 (toDicomWebFormat (SeriesObject.mk "1.2.3")) _
      "1.2.3" rfl,
    extractSeriesUids_behaviour.2.2 [] _ (fun u h => Option.noConfusion h),
    extractSeriesUids_behaviour.2.1 (toDicomWebFormat (SeriesObject.mk "1.2.4")) _
      "1.2.4" rfl,
    extractSeriesUids_behaviour.1]

/-- C6: the validator returns true exactly for the strings whose characters
form one or more digits followed by zero or more groups of a single dot and
one or more digits, of length at most 64; in particular it rejects the
empty string, a 65-character string, letters, and leading, trailing or
consecutive dots. -/
theorem isValidStudyInstanceUID_grammar :
    (∀ s : String,
      isValidStudyInstanceUID s = true ↔ (UidChars s.data ∧ s.length ≤ 64)) ∧
    isValidStudyInstanceUID "" = false ∧
    isValidStudyInstanceUID (String.mk (List.replicate 65 '1')) = false ∧
    isValidStudyInstanceUID "1a2" = false ∧
    isValidStudyInstanceUID ".12" = false ∧
    isValidStudyInstanceUID "12." = false ∧
    isValidStudyInstanceUID "1..2" = false :=
  ⟨valid_iff, by decide, by decide, by decide, by decide, by decide, by decide⟩

/-- Witness for C6: a accepted concrete identifier lies in the grammar. -/
theorem isValidStudyInstanceUID_grammar_witness :
    UidChars ("1.2.840" : String).data ∧ ("1.2.840" : String).length ≤ 64 :=
  (isValidStudyInstanceUID_grammar.1 "1.2.840").mp (by decide)

/-- C7: a study identifier that fails the UID grammar makes both route
handlers answer with the validation error and an empty request trace, so
the archive client performs zero outbound calls for that request. -/
theorem invalid_uid_no_network_calls (p s : Server) (store : Store) (uid : String)
    (h : isValidStudyInstanceUID uid = false) :
    caseBundleHandler p s store uid =
      (CaseBundleResponse.badRequest "Invalid StudyInstanceUID format", store, []) ∧
    orthancSeriesHandler p s uid =
      (OrthancSeriesResponse.badRequest "Invalid StudyInstanceUID format", []) := by
  constructor
  · simp [caseBundleHandler, h]
  · simp [orthancSeriesHandler, h]

/-- Witness for C7: a malformed identifier produces the validation error on
both routes with zero recorded requests. -/
theorem invalid_uid_no_network_calls_witness :
    caseBundleHandler testPrimary downServer caseBundles "not-a-uid" =
      (CaseBundleResponse.badRequest "Invalid StudyInstanceUID format", caseBundles, []) ∧
    orthancSeriesHandler testPrimary downServer "not-a-uid" =
      (OrthancSeriesResponse.badRequest "Invalid StudyInstanceUID format", []) :=
  invalid_uid_no_network_calls testPrimary downServer caseBundles "not-a-uid" (by decide)

/-- C9: for a study identifier present in the static record store, an
archive fetch yielding two well-formed groups carrying two series
identifiers makes the case-bundle handler answer with the stored record
whose imaging series list is overwritten by exactly those two identifiers
in order. -/
theorem caseBundle_overwrites_placeholder (p s : Server) (uid : String) (cb : CaseBundle)
    (g1 g2 : DicomWebSeries) (u1 u2 : String)
    (hfind : findCaseByStudyUid uid = some cb)
    (h1 : firstSeriesValue g1 = some (JsonVal.str u1))
    (h2 : firstSeriesValue g2 = some (JsonVal.str u2))
    (hfetch : (fetchStudySeries p s uid).1 = some [g1, g2]) :
    (caseBundleHandler p s caseBundles uid).1 =
      CaseBundleResponse.okBundle
        { cb with imaging := { cb.imaging with series := [u1, u2] } } := by
  rw [findCaseByStudyUid] at hfind
  have hv := caseBundles_keys_valid uid cb hfind
  have hext : extractSeriesUids [g1, g2] = [u1, u2] := by
    rw [extractSeriesUids_cons_str g1 [g2] u1 h1, extractSeriesUids_cons_str g2 [] u2 h2]
    rfl
  simp [caseBundleHandler, hv, hfind, hfetch, hext]

/-- Witness for C9: case 123 holds placeholder series, the test server
returns two series, and the response carries exactly those two. -/
theorem caseBundle_overwrites_placeholder_witness :
    (caseBundleHandler testPrimary downServer caseBundles "123").1 =
      CaseBundleResponse.okBundle
        { caseMax with imaging := { caseMax.imaging with series := ["1.2.3", "1.2.4"] } } :=
  caseBundle_overwrites_placeholder testPrimary downServer "123" caseMax
    (toDicomWebFormat (SeriesObject.mk "1.2.3")) (toDicomWebFormat (SeriesObject.mk "1.2.4"))
    "1.2.3" "1.2.4" (by decide) rfl rfl (by decide)

/-- C10: for a study identifier present in the static record store, an
archive fetch yielding the null sentinel or the empty sequence leaves the
record's imaging series untouched: the handler answers with the stored
record as it is and the store is unchanged. -/
theorem caseBundle_preserves_placeholder (p s : Server) (uid : String) (cb : CaseBundle)
    (hfind : findCaseByStudyUid uid = some cb)
    (hfetch : (fetchStudySeries p s uid).1 = none ∨ (fetchStudySeries p s uid).1 = some []) :
    (caseBundleHandler p s caseBundles uid).1 = CaseBundleResponse.okBundle cb ∧
    (caseBundleHandler p s caseBundles uid).2.1 = caseBundles := by
  rw [findCaseByStudyUid] at hfind
  have hv := caseBundles_keys_valid uid cb hfind
  rcases hfetch with hf | hf
  · constructor
    · simp [caseBundleHandler, hv, hfind, hf]
    · simp [caseBundleHandler, hv, hfind, hf]
  · constructor
    · simp [caseBundleHandler, hv, hfind, hf]
    · simp [caseBundleHandler, hv, hfind, hf]

/-- Witness for C10: both servers down, case 123 keeps its placeholder
series and the store is untouched. -/
theorem caseBundle_preserves_placeholder_witness :
    (caseBundleHandler downServer downServer caseBundles "123").1 =
      CaseBundleResponse.okBundle caseMax ∧
    (caseBundleHandler downServer downServer caseBundles "123").2.1 = caseBundles :=
  caseBundle_preserves_placeholder downServer downServer "123" caseMax
    (by decide) (Or.inl (by decide))

/-- C2 counterexample: serving one request against the repository's static
store does change the store.  The record under key 123 is the store's own
object; the handler's in-place assignment of the fetched series overwrites
it, so the store after the request differs from the store before. -/
theorem caseBundleHandler_mutates_store_cex :
    (caseBundleHandler testPrimary downServer caseBundles "123").2.1 ≠ caseBundles := by
  decide

/-- C2 as amended: serving one request leaves every record under a key
other than the requested identifier unchanged, but the requested record is
shared with the store, and a successful non-empty archive fetch overwrites
its imaging series in place, which later requests observe. -/
theorem caseBundleHandler_store_frame (p s : Server) (store : Store) (uid : String) :
    (∀ k, k ≠ uid →
      lookupStore (caseBundleHandler p s store uid).2.1 k = lookupStore store k) ∧
    (∀ cb sd, lookupStore store uid = some cb →
      isValidStudyInstanceUID uid = true →
      (fetchStudySeries p s uid).1 = some sd → sd.length > 0 →
      (caseBundleHandler p s store uid).2.1 =
        updateStore store uid
          { cb with imaging := { cb.imaging with series := extractSeriesUids sd } }) := by
  constructor
  · intro k hk
    rcases caseBundleHandler_store_cases p s store uid with hcase | ⟨cb', hcase⟩
    · rw [hcase]
    · rw [hcase]
      exact lookupStore_updateStore_ne store uid k cb' hk
  · intro cb sd hl hv hf hlen
    simp [caseBundleHandler, hv, hl, hf, hlen]

/-- Witness for C2 as amended: requesting case 123 leaves the record of
another patient untouched while replacing the imaging series stored under
key 123. -/
theorem caseBundleHandler_store_frame_witness :
    lookupStore (caseBundleHandler testPrimary downServer caseBundles "123").2.1 buddyUid =
      lookupStore caseBundles buddyUid ∧
    (caseBundleHandler testPrimary downServer caseBundles "123").2.1 =
      updateStore caseBundles "123"
        { caseMax with imaging := { caseMax.imaging with series := ["1.2.3", "1.2.4"] } } :=
  ⟨(caseBundleHandler_store_frame testPrimary downServer caseBundles "123").1 buddyUid
      (by decide),
   (caseBundleHandler_store_frame testPrimary downServer caseBundles "123").2 caseMax
      [toDicomWebFormat (SeriesObject.mk "1.2.3"), toDicomWebFormat (SeriesObject.mk "1.2.4")]
      (by decide) (by decide) (by decide) (by decide)⟩

end OrthancApi
